import Mathlib

/-!
Verification of the FCEUX SDL/Qt speed-throttle module
(src/drivers/Qt/sdl-throttle.cpp).

The C code works on `double` values; we embed them as exact rationals (ℚ).
All constants in the source (0.015625, 32, 1.0, the LOGMUL literal, 100.0,
16777216.0, 1000) are exactly representable as doubles, and every claim we
settle either concerns exact control flow (clamping, branching, return
codes) or carries an explicit numeric tolerance, so the rational model is
faithful for the properties at issue.

The millisecond clock (SDL_GetTicks) is modelled by passing the up-to-three
tick readings a single SpeedThrottle call can make as explicit parameters;
the blocking sleep (SDL_Delay) is modelled by recording the duration passed
to it in the call's result.
-/

namespace FceuxThrottle

/-- `static const double Slowest = 0.015625;` (1/64x speed). -/
def Slowest : ℚ := 0.015625

/-- `static const double Fastest = 32;` (32x speed). -/
def Fastest : ℚ := 32

/-- `static const double Normal = 1.0;` (1x speed). -/
def Normal : ℚ := 1

/-- `#define LOGMUL 1.259921049894873` — the source's decimal literal for
exp(log 2 / 3), i.e. the cube root of 2. -/
def LOGMUL : ℚ := 1.259921049894873

/-- The module's file-scope mutable state:
`Lasttime`, `Nexttime` (uint64 millisecond timestamps),
`desired_frametime` (double seconds), `InFrame` (int used as a flag),
`g_fpsScale` (double scale factor) and `MaxSpeed` (bool). -/
structure ThrottleState where
  Lasttime : ℕ
  Nexttime : ℕ
  desired_frametime : ℚ
  InFrame : Bool
  g_fpsScale : ℚ
  MaxSpeed : Bool
deriving DecidableEq

/-- Truncation toward zero, as a C cast from `double` to a signed integer
type performs (for in-range values). -/
def truncQ (q : ℚ) : ℤ := if q < 0 then Int.ceil q else Int.floor q

/-- `RefreshThrottleFPS()`: recomputes `desired_frametime` from the
fixed-point native rate `fps` (Hz scaled by 2^24, from
FCEUI_GetDesiredFPS) and the current scale, and zeroes the pacing window
(`Lasttime = 0; Nexttime = 0; InFrame = 0;`). -/
def RefreshThrottleFPS (fps : ℤ) (s : ThrottleState) : ThrottleState :=
  let hz : ℚ := (fps : ℚ) / 16777216
  { s with desired_frametime := 1 / (hz * s.g_fpsScale),
           Lasttime := 0, Nexttime := 0, InFrame := false }

/-- The intermediate `T` of RefreshThrottleFPS before its clamp:
`T = (int32_t)(desired_frametime * 1000.0)`, as a function of the
fixed-point rate and the scale factor. -/
def throttleT (fps : ℤ) (scale : ℚ) : ℤ :=
  let hz : ℚ := (fps : ℚ) / 16777216
  truncQ ((1 / (hz * scale)) * 1000)

/-- The integer-millisecond value `T` of RefreshThrottleFPS after its
clamp `if (T < 0) T = 1;`. -/
def throttleMs (fps : ℤ) (scale : ℚ) : ℤ :=
  if throttleT fps scale < 0 then 1 else throttleT fps scale

/-- `Lasttime` after the `if (!Lasttime) Lasttime = SDL_GetTicks();` step
of SpeedThrottle, where `t1` is that (first) tick reading. -/
def throttleLast (s : ThrottleState) (t1 : ℕ) : ℕ :=
  if s.Lasttime = 0 then t1 else s.Lasttime

/-- `Nexttime` after the `if (!InFrame)` step of SpeedThrottle:
the frame deadline `Lasttime + desired_frametime * 1000` (computed in
double, truncated on assignment to uint64) when a new window starts,
otherwise the stored deadline. -/
def throttleNext (s : ThrottleState) (t1 : ℕ) : ℕ :=
  if s.InFrame then s.Nexttime
  else (truncQ ((throttleLast s t1 : ℚ) + s.desired_frametime * 1000)).toNat

/-- `time_left` of SpeedThrottle before the 50 ms cap:
0 if `cur_time >= Nexttime`, else `Nexttime - cur_time` (t2 is the
`cur_time` tick reading). -/
def timeLeftPreCap (s : ThrottleState) (t1 t2 : ℕ) : ℕ :=
  if throttleNext s t1 ≤ t2 then 0 else throttleNext s t1 - t2

/-- Result of one SpeedThrottle invocation: the int return value
(0 = done waiting, 1 = must still wait), the updated module state, and
the duration handed to SDL_Delay (0 when SDL_Delay is not called). -/
structure ThrottleCall where
  ret : ℤ
  state : ThrottleState
  sleep : ℕ
deriving DecidableEq

/-- `SpeedThrottle()`. `t1` is the tick reading taken when `Lasttime` is 0,
`t2` the `cur_time` reading, `t3` the reading taken after the sleep when
the frame wait completes. -/
def SpeedThrottle (s : ThrottleState) (t1 t2 t3 : ℕ) : ThrottleCall :=
  if 32 ≤ s.g_fpsScale then ⟨0, s, 0⟩
  else
    let lt := throttleLast s t1
    let nt := throttleNext s t1
    let tl0 := timeLeftPreCap s t1 t2
    if 50 < tl0 then
      ⟨1, { s with Lasttime := lt, Nexttime := nt, InFrame := true }, 50⟩
    else
      ⟨0, { s with Lasttime := t3, Nexttime := nt, InFrame := false }, tl0⟩

/-- `IncreaseEmulationSpeed()`: scale times LOGMUL, clamped above at
Fastest, then RefreshThrottleFPS and one FCEU_DispMessage notification.
Returns (new state, number of RefreshThrottleFPS calls, list of
percentages passed to the notification). -/
def IncreaseEmulationSpeed (fps : ℤ) (s : ThrottleState) :
    ThrottleState × ℕ × List ℚ :=
  let sc0 := s.g_fpsScale * LOGMUL
  let sc := if Fastest < sc0 then Fastest else sc0
  let s1 := RefreshThrottleFPS fps { s with g_fpsScale := sc }
  (s1, 1, [s1.g_fpsScale * 100])

/-- `DecreaseEmulationSpeed()`: scale divided by LOGMUL, clamped below at
Slowest, then RefreshThrottleFPS and one notification. -/
def DecreaseEmulationSpeed (fps : ℤ) (s : ThrottleState) :
    ThrottleState × ℕ × List ℚ :=
  let sc0 := s.g_fpsScale / LOGMUL
  let sc := if sc0 < Slowest then Slowest else sc0
  let s1 := RefreshThrottleFPS fps { s with g_fpsScale := sc }
  (s1, 1, [s1.g_fpsScale * 100])

/-- `CustomEmulationSpeed(int spdPercent)`: returns -1 (leaving everything
untouched) when `spdPercent < 1`; otherwise sets the scale to
`spdPercent / 100.0`, clamps it to [Slowest, Fastest], refreshes, notifies
and returns 0. First component is the C return value. -/
def CustomEmulationSpeed (fps : ℤ) (spdPercent : ℤ) (s : ThrottleState) :
    ℤ × ThrottleState × ℕ × List ℚ :=
  if spdPercent < 1 then (-1, s, 0, [])
  else
    let sc0 := (spdPercent : ℚ) / 100
    let sc := if sc0 < Slowest then Slowest
              else if Fastest < sc0 then Fastest else sc0
    let s1 := RefreshThrottleFPS fps { s with g_fpsScale := sc }
    (0, s1, 1, [s1.g_fpsScale * 100])

/-- The `cmd` argument of FCEUD_SetEmulationSpeed. The EMUSPEED_* integer
constants are declared outside this file; the switch distinguishes exactly
the five named presets, with `OTHER` standing for every other value
(including the designated none), all of which hit the `default:` branch. -/
inductive EmuSpeedCmd where
  | SLOWEST | SLOWER | NORMAL | FASTER | FASTEST | OTHER
deriving DecidableEq

/-- The common tail of every non-default branch of FCEUD_SetEmulationSpeed:
the trailing `RefreshThrottleFPS(); FCEU_DispMessage(...)` after the
switch, appended to whatever the dispatched branch already did. -/
def finishSpeedCmd (fps : ℤ) (s : ThrottleState) (n : ℕ) (m : List ℚ) :
    ThrottleState × ℕ × List ℚ :=
  let s1 := RefreshThrottleFPS fps s
  (s1, n + 1, m ++ [s1.g_fpsScale * 100])

/-- `FCEUD_SetEmulationSpeed(int cmd)`: clears MaxSpeed, dispatches on the
preset, then (except in the default case, which returns early) refreshes
and notifies once more. -/
def FCEUD_SetEmulationSpeed (fps : ℤ) (cmd : EmuSpeedCmd) (s : ThrottleState) :
    ThrottleState × ℕ × List ℚ :=
  let s0 := { s with MaxSpeed := false }
  match cmd with
  | .SLOWEST => finishSpeedCmd fps { s0 with g_fpsScale := Slowest } 0 []
  | .SLOWER =>
      let r := DecreaseEmulationSpeed fps s0
      finishSpeedCmd fps r.1 r.2.1 r.2.2
  | .NORMAL => finishSpeedCmd fps { s0 with g_fpsScale := Normal } 0 []
  | .FASTER =>
      let r := IncreaseEmulationSpeed fps s0
      finishSpeedCmd fps r.1 r.2.1 r.2.2
  | .FASTEST =>
      finishSpeedCmd fps { s0 with g_fpsScale := Fastest, MaxSpeed := true } 0 []
  | .OTHER => (s0, 0, [])

/-- The documented bound on the scale factor: within [Slowest, Fastest]. -/
def inRange (q : ℚ) : Prop := Slowest ≤ q ∧ q ≤ Fastest

instance (q : ℚ) : Decidable (inRange q) := by
  unfold inRange; infer_instance

/-- A concrete module state at normal speed (scale 1, no frame wait
in progress, MaxSpeed off), used to instantiate universally quantified
theorems. -/
def sampleState : ThrottleState := ⟨0, 0, 1/60, false, 1, false⟩

/-- A concrete state whose MaxSpeed flag is set. -/
def sampleStateMax : ThrottleState := ⟨0, 0, 1/60, false, 1, true⟩

/-- A concrete state at the Fastest (unthrottled) scale. -/
def sampleState32 : ThrottleState := ⟨0, 0, 1/1920, false, 32, false⟩

/-- A concrete throttled state with a 10 ms frame budget. -/
def pacingState : ThrottleState := ⟨0, 0, 1/100, false, 1, false⟩

/-- A concrete throttled state with a 1000 ms frame budget (Slowest-like
pacing). -/
def slowPacingState : ThrottleState := ⟨0, 0, 1, false, 1, false⟩

/-! ## Helper lemmas -/

theorem refresh_scale (fps : ℤ) (s : ThrottleState) :
    (RefreshThrottleFPS fps s).g_fpsScale = s.g_fpsScale := rfl

theorem inc_scale (fps : ℤ) (s : ThrottleState) :
    (IncreaseEmulationSpeed fps s).1.g_fpsScale =
      if Fastest < s.g_fpsScale * LOGMUL then Fastest
      else s.g_fpsScale * LOGMUL := rfl

theorem dec_scale (fps : ℤ) (s : ThrottleState) :
    (DecreaseEmulationSpeed fps s).1.g_fpsScale =
      if s.g_fpsScale / LOGMUL < Slowest then Slowest
      else s.g_fpsScale / LOGMUL := rfl

theorem inc_pres (fps : ℤ) (s : ThrottleState) (h : inRange s.g_fpsScale) :
    inRange (IncreaseEmulationSpeed fps s).1.g_fpsScale := by
  obtain ⟨hl, hu⟩ := h
  rw [inRange, inc_scale]
  have hL : (1 : ℚ) ≤ LOGMUL := by rw [LOGMUL]; norm_num
  have hS : (0 : ℚ) < Slowest := by rw [Slowest]; norm_num
  split
  · exact ⟨by rw [Slowest, Fastest]; norm_num, le_refl _⟩
  next hns =>
    refine ⟨?_, le_of_not_lt hns⟩
    calc Slowest ≤ s.g_fpsScale := hl
      _ = s.g_fpsScale * 1 := (mul_one _).symm
      _ ≤ s.g_fpsScale * LOGMUL :=
          mul_le_mul_of_nonneg_left hL (le_trans hS.le hl)

theorem dec_pres (fps : ℤ) (s : ThrottleState) (h : inRange s.g_fpsScale) :
    inRange (DecreaseEmulationSpeed fps s).1.g_fpsScale := by
  obtain ⟨hl, hu⟩ := h
  rw [inRange, dec_scale]
  have hL : (1 : ℚ) ≤ LOGMUL := by rw [LOGMUL]; norm_num
  have hS : (0 : ℚ) < Slowest := by rw [Slowest]; norm_num
  split
  · exact ⟨le_refl _, by rw [Slowest, Fastest]; norm_num⟩
  next hns =>
    refine ⟨le_of_not_lt hns, ?_⟩
    calc s.g_fpsScale / LOGMUL ≤ s.g_fpsScale :=
          div_le_self (le_trans hS.le hl) hL
      _ ≤ Fastest := hu

theorem custom_pres (fps p : ℤ) (s : ThrottleState) (h : inRange s.g_fpsScale) :
    inRange (CustomEmulationSpeed fps p s).2.1.g_fpsScale := by
  rw [CustomEmulationSpeed]
  split
  · exact h
  · dsimp only
    rw [inRange, refresh_scale]
    have hSF : Slowest ≤ Fastest := by rw [Slowest, Fastest]; norm_num
    split
    · exact ⟨le_refl _, hSF⟩
    next h1 =>
      split
      · exact ⟨hSF, le_refl _⟩
      next h2 => exact ⟨le_of_not_lt h1, le_of_not_lt h2⟩

theorem inc_maxSpeed (fps : ℤ) (s : ThrottleState) :
    (IncreaseEmulationSpeed fps s).1.MaxSpeed = s.MaxSpeed := rfl

theorem dec_maxSpeed (fps : ℤ) (s : ThrottleState) :
    (DecreaseEmulationSpeed fps s).1.MaxSpeed = s.MaxSpeed := rfl

theorem finish_scale (fps : ℤ) (s : ThrottleState) (n : ℕ) (m : List ℚ) :
    (finishSpeedCmd fps s n m).1.g_fpsScale = s.g_fpsScale := rfl

theorem fceud_pres (fps : ℤ) (cmd : EmuSpeedCmd) (s : ThrottleState)
    (h : inRange s.g_fpsScale) :
    inRange (FCEUD_SetEmulationSpeed fps cmd s).1.g_fpsScale := by
  have hmax : inRange ({ s with MaxSpeed := false } : ThrottleState).g_fpsScale := h
  cases cmd with
  | SLOWEST =>
      rw [FCEUD_SetEmulationSpeed, finish_scale]
      exact ⟨le_refl _, by rw [Slowest, Fastest]; norm_num⟩
  | SLOWER =>
      rw [FCEUD_SetEmulationSpeed]
      rw [finish_scale]
      exact dec_pres fps _ hmax
  | NORMAL =>
      rw [FCEUD_SetEmulationSpeed, finish_scale]
      exact ⟨by rw [Slowest, Normal]; norm_num, by rw [Normal, Fastest]; norm_num⟩
  | FASTER =>
      rw [FCEUD_SetEmulationSpeed]
      rw [finish_scale]
      exact inc_pres fps _ hmax
  | FASTEST =>
      rw [FCEUD_SetEmulationSpeed, finish_scale]
      exact ⟨by rw [Slowest, Fastest]; norm_num, le_refl _⟩
  | OTHER => exact h

/-! ## Claim theorems -/

/-- C9: RefreshThrottleFPS sets `desired_frametime` to
`1 / ((fps_raw / 16777216) * ScaleFactor)` and clears the whole pacing
window — the window-start timestamp, the deadline timestamp and the
in-progress flag all become zero; it is total (always succeeds, no error
value). -/
theorem refreshThrottleFPS_spec (fps : ℤ) (s : ThrottleState) :
    RefreshThrottleFPS fps s =
      { s with
        desired_frametime := 1 / (((fps : ℚ) / 16777216) * s.g_fpsScale),
        Lasttime := 0, Nexttime := 0, InFrame := false } := rfl

/-- C1 counterexample: at native rate fps_raw = 2^30 (64 Hz) and
ScaleFactor 32, the frame budget truncates to 0 ms, and the source's clamp
`if (T < 0) T = 1;` does NOT raise it: the resulting millisecond value is
0, not strictly positive, refuting the claim that a computed budget ≤ 0 is
always clamped up to 1. -/
theorem throttleMs_zero_counterexample :
    throttleT 1073741824 32 = 0 ∧ throttleMs 1073741824 32 = 0 := by
  have h : throttleT 1073741824 32 = 0 := by
    rw [throttleT, truncQ]
    norm_num
  exact ⟨h, by rw [throttleMs, h]; norm_num⟩

/-- C1 amended: the integer millisecond value derived by
RefreshThrottleFPS is clamped to 1 only when the truncated value is
strictly negative; a truncated value of 0 is left at 0. Hence the result
is always nonnegative, but not always strictly positive. -/
theorem throttleMs_clamp_only_negative (fps : ℤ) (scale : ℚ) :
    0 ≤ throttleMs fps scale
    ∧ (throttleT fps scale < 0 → throttleMs fps scale = 1)
    ∧ (0 ≤ throttleT fps scale → throttleMs fps scale = throttleT fps scale) := by
  rw [throttleMs]
  refine ⟨?_, fun h => ?_, fun h => ?_⟩ <;> split <;> omega

/-- C1 amended, witness: at fps_raw = -2^24 (an invalid negative rate) and
scale 1 the truncated value is -1000, and the clamp raises it to 1. -/
theorem throttleMs_clamp_only_negative_witness :
    throttleT (-16777216) 1 < 0 ∧ throttleMs (-16777216) 1 = 1 := by
  have h : throttleT (-16777216) 1 = -1000 := by
    rw [throttleT, truncQ]
    norm_num
    rw [show ((-1000 : ℚ)) = ((-1000 : ℤ) : ℚ) by norm_num, Int.ceil_intCast]
  exact ⟨by rw [h]; norm_num,
         (throttleMs_clamp_only_negative (-16777216) 1).2.1 (by rw [h]; norm_num)⟩

/-- C6: every SpeedThrottle invocation, in every state and for every
combination of clock readings, hands the blocking sleep primitive a
duration of at most 50 ms. -/
theorem speedThrottle_sleep_le_50 (s : ThrottleState) (t1 t2 t3 : ℕ) :
    (SpeedThrottle s t1 t2 t3).sleep ≤ 50 := by
  rw [SpeedThrottle]
  split
  · exact Nat.zero_le _
  · dsimp only
    split
    · exact le_refl _
    next hns => exact le_of_not_lt hns

/-- C10: FCEUD_SetEmulationSpeed performs the budget recalculation and the
speed notification twice for the SLOWER and FASTER presets (once inside
the delegated Decrease/IncreaseEmulationSpeed, once after the dispatch),
exactly once for SLOWEST, NORMAL and FASTEST, and zero times for an
unrecognized command. -/
theorem setPreset_double_refresh (fps : ℤ) (s : ThrottleState) :
    (FCEUD_SetEmulationSpeed fps .SLOWER s).2.1 = 2
    ∧ (FCEUD_SetEmulationSpeed fps .SLOWER s).2.2.length = 2
    ∧ (FCEUD_SetEmulationSpeed fps .FASTER s).2.1 = 2
    ∧ (FCEUD_SetEmulationSpeed fps .FASTER s).2.2.length = 2
    ∧ (FCEUD_SetEmulationSpeed fps .SLOWEST s).2.1 = 1
    ∧ (FCEUD_SetEmulationSpeed fps .SLOWEST s).2.2.length = 1
    ∧ (FCEUD_SetEmulationSpeed fps .NORMAL s).2.1 = 1
    ∧ (FCEUD_SetEmulationSpeed fps .NORMAL s).2.2.length = 1
    ∧ (FCEUD_SetEmulationSpeed fps .FASTEST s).2.1 = 1
    ∧ (FCEUD_SetEmulationSpeed fps .FASTEST s).2.2.length = 1
    ∧ (FCEUD_SetEmulationSpeed fps .OTHER s).2.1 = 0
    ∧ (FCEUD_SetEmulationSpeed fps .OTHER s).2.2.length = 0 :=
  ⟨rfl, rfl, rfl, rfl, rfl, rfl, rfl, rfl, rfl, rfl, rfl, rfl⟩

/-- C3 counterexample: starting from a state whose MaxSpeed flag is set,
an unrecognized command does NOT leave all Speed State unchanged: the flag
is cleared to false before the switch dispatches, so the "no-op" case
still mutates MaxSpeed. -/
theorem setPreset_noop_clears_maxSpeed :
    sampleStateMax.MaxSpeed = true
    ∧ (FCEUD_SetEmulationSpeed 16777216 .OTHER sampleStateMax).1.MaxSpeed
        = false := ⟨rfl, rfl⟩

/-- C3 amended: for every unrecognized command value
FCEUD_SetEmulationSpeed performs no clamping and no notification and
leaves ScaleFactor and the pacing window unchanged, but it unconditionally
clears the MaxSpeed flag first (the clear happens before the dispatch);
after any call, recognized or not, MaxSpeed is true exactly when the
command was FASTEST. -/
theorem setPreset_noop_amended (fps : ℤ) (cmd : EmuSpeedCmd)
    (s : ThrottleState) :
    FCEUD_SetEmulationSpeed fps .OTHER s = ({ s with MaxSpeed := false }, 0, [])
    ∧ ((FCEUD_SetEmulationSpeed fps cmd s).1.MaxSpeed = true
        ↔ cmd = .FASTEST) := by
  refine ⟨rfl, ?_⟩
  cases cmd <;>
    simp [FCEUD_SetEmulationSpeed, finishSpeedCmd, RefreshThrottleFPS,
      inc_maxSpeed, dec_maxSpeed]

/-- C2: starting from any ScaleFactor in [Slowest, Fastest], every Speed
Adjuster operation (IncreaseEmulationSpeed, DecreaseEmulationSpeed,
CustomEmulationSpeed with any percentage, FCEUD_SetEmulationSpeed with any
command) leaves ScaleFactor in [Slowest, Fastest]; in particular any
number of repeated Increase calls and any number of repeated Decrease
calls keep it in that interval. -/
theorem scaleFactor_bounds_invariant (fps p : ℤ) (cmd : EmuSpeedCmd)
    (s : ThrottleState) (h : inRange s.g_fpsScale) :
    inRange (IncreaseEmulationSpeed fps s).1.g_fpsScale
    ∧ inRange (DecreaseEmulationSpeed fps s).1.g_fpsScale
    ∧ inRange (CustomEmulationSpeed fps p s).2.1.g_fpsScale
    ∧ inRange (FCEUD_SetEmulationSpeed fps cmd s).1.g_fpsScale
    ∧ (∀ n : ℕ,
        inRange (((fun st => (IncreaseEmulationSpeed fps st).1)^[n] s).g_fpsScale))
    ∧ (∀ n : ℕ,
        inRange (((fun st => (DecreaseEmulationSpeed fps st).1)^[n] s).g_fpsScale)) := by
  refine ⟨inc_pres fps s h, dec_pres fps s h, custom_pres fps p s h,
    fceud_pres fps cmd s h, fun n => ?_, fun n => ?_⟩
  · induction n with
    | zero => exact h
    | succ n ih =>
        rw [Function.iterate_succ_apply']
        exact inc_pres fps _ ih
  · induction n with
    | zero => exact h
    | succ n ih =>
        rw [Function.iterate_succ_apply']
        exact dec_pres fps _ ih

/-- C2 witness: the bounds invariant instantiated at the normal-speed
sample state. -/
theorem scaleFactor_bounds_invariant_witness :
    inRange (IncreaseEmulationSpeed 16777216 sampleState).1.g_fpsScale :=
  (scaleFactor_bounds_invariant 16777216 0 .OTHER sampleState
    ⟨by rw [Slowest, sampleState]; norm_num,
     by rw [Fastest, sampleState]; norm_num⟩).1

/-- C4: CustomEmulationSpeed returns the invalid-argument indicator -1
exactly when the requested percentage is below 1, leaving the whole state
untouched in that case; for p ≥ 1 it returns 0 and sets ScaleFactor to
p/100 clamped to [Slowest, Fastest]; p = 50 yields exactly 1/2 and
p = 10000 yields exactly Fastest = 32. -/
theorem customEmulationSpeed_spec (fps p : ℤ) (s : ThrottleState) :
    (p < 1 → CustomEmulationSpeed fps p s = (-1, s, 0, []))
    ∧ (1 ≤ p → (CustomEmulationSpeed fps p s).1 = 0
        ∧ (CustomEmulationSpeed fps p s).2.1.g_fpsScale =
            (if (p : ℚ) / 100 < Slowest then Slowest
             else if Fastest < (p : ℚ) / 100 then Fastest else (p : ℚ) / 100))
    ∧ (CustomEmulationSpeed fps 50 s).2.1.g_fpsScale = 1/2
    ∧ (CustomEmulationSpeed fps 10000 s).2.1.g_fpsScale = Fastest := by
  refine ⟨fun h => ?_, fun h => ?_, ?_, ?_⟩
  · rw [CustomEmulationSpeed, if_pos h]
  · rw [CustomEmulationSpeed, if_neg (not_lt.mpr h)]
    exact ⟨rfl, rfl⟩
  · rw [CustomEmulationSpeed, if_neg (by norm_num), refresh_scale]
    norm_num [Slowest, Fastest]
  · rw [CustomEmulationSpeed, if_neg (by norm_num), refresh_scale]
    norm_num [Slowest, Fastest]

/-- C4 witness: percentage 0 is rejected with -1 and the state survives
unchanged; percentage 200 is accepted with result 0. -/
theorem customEmulationSpeed_spec_witness :
    CustomEmulationSpeed 16777216 0 sampleState = (-1, sampleState, 0, [])
    ∧ (CustomEmulationSpeed 16777216 200 sampleState).1 = 0 :=
  ⟨(customEmulationSpeed_spec 16777216 0 sampleState).1 (by norm_num),
   ((customEmulationSpeed_spec 16777216 200 sampleState).2.1 (by norm_num)).1⟩

/-- C5: whenever ScaleFactor sits at the Fastest bound, SpeedThrottle
returns 0 (WAIT_COMPLETE) at once, passes nothing to the sleep primitive,
and leaves the entire state (Lasttime, Nexttime, InFrame, everything)
unchanged — and therefore any number of consecutive calls leaves the
state fixed. -/
theorem speedThrottle_fastest_fastpath (s : ThrottleState) (t1 t2 t3 : ℕ)
    (h : s.g_fpsScale = Fastest) :
    SpeedThrottle s t1 t2 t3 = ⟨0, s, 0⟩
    ∧ ∀ n : ℕ, (fun st => (SpeedThrottle st t1 t2 t3).state)^[n] s = s := by
  have h32 : (32 : ℚ) ≤ s.g_fpsScale := by rw [h, Fastest]
  have h1 : SpeedThrottle s t1 t2 t3 = ⟨0, s, 0⟩ := by
    rw [SpeedThrottle, if_pos h32]
  refine ⟨h1, fun n => ?_⟩
  induction n with
  | zero => rfl
  | succ n ih =>
      rw [Function.iterate_succ_apply', ih]
      show (SpeedThrottle s t1 t2 t3).state = s
      rw [h1]

/-- C5 witness: the fast path at a concrete unthrottled state. -/
theorem speedThrottle_fastest_fastpath_witness :
    SpeedThrottle sampleState32 7 8 9 = ⟨0, sampleState32, 0⟩ :=
  (speedThrottle_fastest_fastpath sampleState32 7 8 9 rfl).1

/-- C7: in a throttled call (ScaleFactor below Fastest), SpeedThrottle
returns 0 (WAIT_COMPLETE) exactly when the pre-cap remaining time to the
frame deadline is at most 50 ms — and then the window is marked
no-longer-in-progress and its start timestamp is reset to the final clock
reading — and returns 1 (WAIT_PENDING) exactly when the pre-cap remaining
time exceeds 50 ms, the window then staying in progress. -/
theorem speedThrottle_complete_iff (s : ThrottleState) (t1 t2 t3 : ℕ)
    (h : s.g_fpsScale < Fastest) :
    ((SpeedThrottle s t1 t2 t3).ret = 0 ↔ timeLeftPreCap s t1 t2 ≤ 50)
    ∧ ((SpeedThrottle s t1 t2 t3).ret = 1 ↔ 50 < timeLeftPreCap s t1 t2)
    ∧ (timeLeftPreCap s t1 t2 ≤ 50 →
        (SpeedThrottle s t1 t2 t3).state =
          { s with Lasttime := t3, Nexttime := throttleNext s t1,
                   InFrame := false })
    ∧ (50 < timeLeftPreCap s t1 t2 →
        (SpeedThrottle s t1 t2 t3).state =
          { s with Lasttime := throttleLast s t1,
                   Nexttime := throttleNext s t1, InFrame := true }) := by
  have hlt : ¬ (32 : ℚ) ≤ s.g_fpsScale := by
    rw [Fastest] at h
    exact not_le.mpr h
  rw [SpeedThrottle, if_neg hlt]
  dsimp only
  by_cases hc : 50 < timeLeftPreCap s t1 t2
  · rw [if_pos hc]
    refine ⟨?_, ?_, fun hle => absurd hc (not_lt.mpr hle), fun _ => rfl⟩
    · constructor
      · intro h10
        exact absurd h10 (by norm_num)
      · intro hle
        exact absurd hc (not_lt.mpr hle)
    · simp [hc]
  · rw [if_neg hc]
    refine ⟨?_, ?_, fun _ => rfl, fun hgt => absurd hgt hc⟩
    · simp [le_of_not_lt hc]
    · constructor
      · intro h01
        exact absurd h01 (by norm_num)
      · intro hgt
        exact absurd hgt hc

/-- C7 witness: a throttled state with a 10 ms budget whose deadline is

10 ms away completes in one call, with the window closed and the start
timestamp set to the final tick reading. -/
theorem speedThrottle_complete_iff_witness :
    (SpeedThrottle pacingState 0 0 10).ret = 0
    ∧ (SpeedThrottle pacingState 0 0 10).state.InFrame = false := by
  have hq : pacingState.g_fpsScale < Fastest := by
    rw [pacingState, Fastest]
    norm_num
  have htl : timeLeftPreCap pacingState 0 0 ≤ 50 := by
    rw [timeLeftPreCap, throttleNext, throttleLast, pacingState, truncQ]
    norm_num
  have h := speedThrottle_complete_iff pacingState 0 0 10 hq
  refine ⟨h.1.mpr htl, ?_⟩
  rw [h.2.2.1 htl]

/-- C8: the geometric step constant LOGMUL is the cube root of 2 to
within 10^-12 (its cube lies within 10^-12 of 2); IncreaseEmulationSpeed
multiplies ScaleFactor by LOGMUL clamping at Fastest and
DecreaseEmulationSpeed divides by LOGMUL clamping at Slowest, so three
Increase calls from scale 1 land within 10^-12 of 2 and three Decrease
calls from scale 1 land within 10^-12 of 1/2. -/
theorem logmul_cube_double (fps : ℤ) (s : ThrottleState)
    (h : s.g_fpsScale = 1) :
    (2 - 1/10^12 < LOGMUL^3 ∧ LOGMUL^3 < 2 + 1/10^12)
    ∧ (IncreaseEmulationSpeed fps s).1.g_fpsScale =
        (if Fastest < s.g_fpsScale * LOGMUL then Fastest
         else s.g_fpsScale * LOGMUL)
    ∧ (DecreaseEmulationSpeed fps s).1.g_fpsScale =
        (if s.g_fpsScale / LOGMUL < Slowest then Slowest
         else s.g_fpsScale / LOGMUL)
    ∧ (2 - 1/10^12 <
        (IncreaseEmulationSpeed fps
          (IncreaseEmulationSpeed fps
            (IncreaseEmulationSpeed fps s).1).1).1.g_fpsScale
       ∧ (IncreaseEmulationSpeed fps
          (IncreaseEmulationSpeed fps
            (IncreaseEmulationSpeed fps s).1).1).1.g_fpsScale < 2 + 1/10^12)
    ∧ (1/2 - 1/10^12 <
        (DecreaseEmulationSpeed fps
          (DecreaseEmulationSpeed fps
            (DecreaseEmulationSpeed fps s).1).1).1.g_fpsScale
       ∧ (DecreaseEmulationSpeed fps
          (DecreaseEmulationSpeed fps
            (DecreaseEmulationSpeed fps s).1).1).1.g_fpsScale < 1/2 + 1/10^12) := by
  have e1 : (IncreaseEmulationSpeed fps s).1.g_fpsScale = LOGMUL := by
    rw [inc_scale, h, one_mul, if_neg (by rw [Fastest, LOGMUL]; norm_num)]
  have e2 : (IncreaseEmulationSpeed fps
      (IncreaseEmulationSpeed fps s).1).1.g_fpsScale = LOGMUL * LOGMUL := by
    rw [inc_scale, e1, if_neg (by rw [Fastest, LOGMUL]; norm_num)]
  have e3 : (IncreaseEmulationSpeed fps (IncreaseEmulationSpeed fps
      (IncreaseEmulationSpeed fps s).1).1).1.g_fpsScale =
      LOGMUL * LOGMUL * LOGMUL := by
    rw [inc_scale, e2, if_neg (by rw [Fastest, LOGMUL]; norm_num)]
  have f1 : (DecreaseEmulationSpeed fps s).1.g_fpsScale = 1 / LOGMUL := by
    rw [dec_scale, h, if_neg (by rw [Slowest, LOGMUL]; norm_num)]
  have f2 : (DecreaseEmulationSpeed fps
      (DecreaseEmulationSpeed fps s).1).1.g_fpsScale = 1 / LOGMUL / LOGMUL := by
    rw [dec_scale, f1, if_neg (by rw [Slowest, LOGMUL]; norm_num)]
  have f3 : (DecreaseEmulationSpeed fps (DecreaseEmulationSpeed fps
      (DecreaseEmulationSpeed fps s).1).1).1.g_fpsScale =
      1 / LOGMUL / LOGMUL / LOGMUL := by
    rw [dec_scale, f2, if_neg (by rw [Slowest, LOGMUL]; norm_num)]
  refine ⟨⟨by rw [LOGMUL]; norm_num, by rw [LOGMUL]; norm_num⟩,
    inc_scale fps s, dec_scale fps s, ?_, ?_⟩
  · rw [e3, LOGMUL]
    norm_num
  · rw [f3, LOGMUL]
    norm_num

/-- C8 witness: the three-step doubling instantiated at the normal-speed
sample state. -/
theorem logmul_cube_double_witness :
    2 - 1/10^12 < (LOGMUL : ℚ)^3 ∧ (LOGMUL : ℚ)^3 < 2 + 1/10^12 :=
  (logmul_cube_double 16777216 sampleState rfl).1

end FceuxThrottle
